import Mathlib

/-!
Verification development for the suggestion lifecycle manager of the
AbelC27/HaufeHackaton2025 VS Code extension.

The embedded code is the class SuggestionManager in
src/vscode-extension/src/services/suggestionManager.ts (the primary
implementation; src/unnamed/part_004 holds a divergent older copy of the
same class).  Host editor state (documents, open editor views, the
decorations of the manager-owned decoration type, open diff views,
user-visible messages, save calls, the aiCodeAssistant.hasSuggestion
context key, and configuration) is modelled explicitly; every method of
the class becomes a state transformer.  Document text is a String and a
range is a pair of character offsets (the VS Code Range is line/column
based; offsets are an equivalent coordinate for single documents).  A
document is identified by one string key standing for both its uri and
its fileName.  The outcomes of the two fallible host primitives used by
acceptSuggestion - TextEditor.edit and TextDocument.save - are modelled
as boolean fields of the host state (editOk, saveOk).
-/

namespace SuggestionManager

/-- A text span, as start/stop character offsets (vscode.Range). -/
structure Range where
  start : Nat
  stop : Nat
deriving DecidableEq, Repr

/-- The anonymous record stored in the private field currentSuggestion
(suggestionManager.ts lines 5-10): the captured editor (kept here as the
uri of its document), the range, the proposed code and the explanation. -/
structure Suggestion where
  uri : String
  range : Range
  newCode : String
  explanation : String
deriving DecidableEq, Repr

/-- Kind of a user-visible notification (vscode.window.showXxxMessage). -/
inductive MsgKind where
  | info
  | warning
  | error
deriving DecidableEq, Repr

/-- The externally owned editor-host state the class reads and writes.
messages and saveCalls record calls most recent first. -/
structure HostState where
  /-- workspace documents: uri to current text -/
  docs : List (String × String)
  /-- uris of the currently open editor views -/
  openEditors : List String
  /-- highlights of the manager-owned decoration type: (uri, range) pairs -/
  decorations : List (String × Range)
  /-- fileNames with an open ai-original / ai-suggestion diff view -/
  diffViews : List String
  /-- user-visible notifications, most recent first -/
  messages : List (MsgKind × String)
  /-- uris passed to TextDocument.save, most recent first -/
  saveCalls : List String
  /-- the aiCodeAssistant.hasSuggestion context key -/
  hasSuggestionCtx : Bool
  /-- resolved value of configuration showInlineDecorations -/
  showInlineDecorations : Bool
  /-- resolved value of configuration autoSave (the code defaults it to true) -/
  autoSave : Bool
  /-- whether the host accepts the next TextEditor.edit call -/
  editOk : Bool
  /-- result the host returns from TextDocument.save -/
  saveOk : Bool
deriving DecidableEq, Repr

/-- Full state: the private fields of the SuggestionManager instance plus
the host state. decorationTypeDisposed records decorationType.dispose(). -/
structure State where
  currentSuggestion : Option Suggestion
  decorationTypeDisposed : Bool
  host : HostState
deriving DecidableEq, Repr

/-- Look a document up by its uri (vscode.workspace.openTextDocument and
the docs assoc list). -/
def lookupDoc : List (String × String) → String → Option String
  | [], _ => none
  | (u, t) :: rest, uri => if u = uri then some t else lookupDoc rest uri

/-- Replace the text of the document at the given uri. -/
def setDoc : List (String × String) → String → String → List (String × String)
  | [], _, _ => []
  | (u, t) :: rest, uri, text =>
      if u = uri then (u, text) :: rest else (u, t) :: setDoc rest uri text

/-- editBuilder.replace(range, newCode): the text of the range is replaced
by newCode.  take and drop clamp, as the host clamps out-of-range positions. -/
def replaceRange (text : String) (r : Range) (newCode : String) : String :=
  text.take r.start ++ newCode ++ text.drop r.stop

/-- Append a user-visible notification. -/
def addMsg (k : MsgKind) (m : String) (s : State) : State :=
  { s with host := { s.host with messages := (k, m) :: s.host.messages } }

/-- clearDecorations (lines 215-219): if a suggestion is pending, call
setDecorations(decorationType, []) on its editor, which removes every
highlight of the decoration type from that view. -/
def clearDecorations (s : State) : State :=
  match s.currentSuggestion with
  | none => s
  | some sug =>
      { s with host :=
          { s.host with decorations := s.host.decorations.filter (fun p => p.1 ≠ sug.uri) } }

/-- vscode.window.showTextDocument: the view for the uri becomes open. -/
def openEditor (s : State) (uri : String) : State :=
  if uri ∈ s.host.openEditors then s
  else { s with host := { s.host with openEditors := uri :: s.host.openEditors } }

/-- workbench.action.closeAllEditors: every editor view closes, diff views
included; highlights live on views, so they vanish with them. -/
def closeAllEditors (s : State) : State :=
  { s with host := { s.host with openEditors := [], diffViews := [], decorations := [] } }

/-- cleanup (lines 221-225): clear decorations, null the suggestion, set
the aiCodeAssistant.hasSuggestion context key false. -/
def cleanup (s : State) : State :=
  let s1 := clearDecorations s
  { s1 with currentSuggestion := none,
            host := { s1.host with hasSuggestionCtx := false } }

/-- dispose (lines 227-230): clear decorations and release the decoration
type.  The pending suggestion and the context key are not touched. -/
def dispose (s : State) : State :=
  let s1 := clearDecorations s
  { s1 with decorationTypeDisposed := true }

/-- showSuggestion (lines 23-74): clear the previous decorations, record
the new suggestion, set the context key true, open the diff view for the
documents fileName (showDiff, lines 153-202; a second diff on the same
fileName reuses the view, a diff on another fileName opens a new view and
the old one stays open), show the information message, and - if
showInlineDecorations is on and a view of the document is visible - apply
the highlight over the range (the deferred setDecorations call of lines
61-69, taken here as completed). -/
def showSuggestion (s : State) (uri : String) (range : Range)
    (newCode : String) (explanation : String) : State :=
  let sug : Suggestion :=
    { uri := uri, range := range, newCode := newCode, explanation := explanation }
  let s1 := clearDecorations s
  let s2 := { s1 with currentSuggestion := some sug }
  let s3 := { s2 with host := { s2.host with hasSuggestionCtx := true } }
  let s4 := { s3 with host := { s3.host with diffViews :=
      (if uri ∈ s3.host.diffViews then s3.host.diffViews else uri :: s3.host.diffViews) } }
  let s5 := addMsg MsgKind.info
      ("💡 " ++ explanation ++ "\n\nReview the diff and press Ctrl+Enter to accept or Esc to reject") s4
  { s5 with host := { s5.host with decorations :=
      (if s5.host.showInlineDecorations = true ∧ uri ∈ s5.host.openEditors then
        (uri, range) :: s5.host.decorations.filter (fun p => p.1 ≠ uri)
      else s5.host.decorations) } }

/-- The synchronous prefix of acceptSuggestion up to its first await
(lines 76-82): the guard on currentSuggestion - warning and return when
none - and the destructuring that captures the suggestion. -/
def acceptGuard (s : State) : Option Suggestion × State :=
  match s.currentSuggestion with
  | none => (none, addMsg MsgKind.warning "No suggestion to accept" s)
  | some sug => (some sug, s)

/-- The catch block of acceptSuggestion (lines 116-127): show the error
message, then try to reopen the file; cleanup is NOT called here. -/
def acceptCatch (sug : Suggestion) (errMsg : String) (s : State) : State :=
  let s1 := addMsg MsgKind.error ("Error applying suggestion: " ++ errMsg) s
  match lookupDoc s1.host.docs sug.uri with
  | some _ => openEditor s1 sug.uri
  | none => s1

/-- The body of acceptSuggestion after its first suspension point
(lines 84-127), run with the captured suggestion: close all editors,
reopen the document by its uri, show it, apply the edit (throwing into
the catch block when the host reports failure), record the save call when
autoSave is configured (the boolean save returns is not inspected), show
the success message and clean up. -/
def acceptBody (sug : Suggestion) (s : State) : State :=
  let s1 := closeAllEditors s
  match lookupDoc s1.host.docs sug.uri with
  | none => acceptCatch sug "cannot open document" s1
  | some text =>
      let s2 := openEditor s1 sug.uri
      if s2.host.editOk then
        let s3 := { s2 with host := { s2.host with docs :=
            (setDoc s2.host.docs sug.uri (replaceRange text sug.range sug.newCode)) } }
        let s4 := { s3 with host := { s3.host with saveCalls :=
            (if s3.host.autoSave then sug.uri :: s3.host.saveCalls else s3.host.saveCalls) } }
        let s5 := addMsg MsgKind.info "✓ AI suggestion accepted and applied!" s4
        cleanup s5
      else
        acceptCatch sug "Failed to apply edit" s2

/-- acceptSuggestion (lines 76-128), run to completion without
interleaving. -/
def acceptSuggestion (s : State) : State :=
  match acceptGuard s with
  | (none, s1) => s1
  | (some sug, s1) => acceptBody sug s1

/-- Cooperative interleaving of two acceptSuggestion calls in which the
second call starts while the first is suspended at its first await: both
guards run before either body, then the bodies run to completion in call
order. -/
def acceptTwiceInterleaved (s : State) : State :=
  match acceptGuard s with
  | (none, s1) => acceptSuggestion s1
  | (some sug1, s1) =>
      match acceptGuard s1 with
      | (none, s2) => acceptBody sug1 s2
      | (some sug2, s2) => acceptBody sug2 (acceptBody sug1 s2)

/-- rejectSuggestion (lines 130-151): silent early return when nothing is
pending; otherwise close all editors, reopen and show the document
(failures there only reach the console), report the rejection, and - in
the finally block - clean up. -/
def rejectSuggestion (s : State) : State :=
  match s.currentSuggestion with
  | none => s
  | some sug =>
      let s1 := closeAllEditors s
      let s2 := match lookupDoc s1.host.docs sug.uri with
                | some _ => addMsg MsgKind.info "AI suggestion rejected" (openEditor s1 sug.uri)
                | none => s1
      cleanup s2

/-! ## Concrete fixtures for witnesses and counterexamples -/

/-- A pending suggestion over the document a.ts: replace offsets 0 to 2 by ZZ. -/
def sugA : Suggestion :=
  { uri := "a.ts", range := { start := 0, stop := 2 }, newCode := "ZZ", explanation := "use ZZ" }

/-- Host just after sugA was presented: its diff view is open, an unrelated
editor on b.ts is open, the context key is set. -/
def hostA : HostState :=
  { docs := [("a.ts", "abcd"), ("b.ts", "qqqq")]
    openEditors := ["b.ts"]
    decorations := []
    diffViews := ["a.ts"]
    messages := []
    saveCalls := []
    hasSuggestionCtx := true
    showInlineDecorations := true
    autoSave := true
    editOk := true
    saveOk := true }

/-- State with sugA pending. -/
def stateA : State :=
  { currentSuggestion := some sugA, decorationTypeDisposed := false, host := hostA }

example : (acceptSuggestion stateA).currentSuggestion = none := by decide
example : lookupDoc (acceptSuggestion stateA).host.docs "a.ts" = some "ZZcd" := by decide
example : (rejectSuggestion stateA).host.docs = stateA.host.docs := by decide

/-! ## Helper lemmas -/

/-- Updating a document that is present leaves it present with the new text. -/
theorem lookupDoc_setDoc (docs : List (String × String)) (uri v t : String)
    (h : lookupDoc docs uri = some t) :
    lookupDoc (setDoc docs uri v) uri = some v := by
  induction docs with
  | nil => simp [lookupDoc] at h
  | cons hd tl ih =>
      obtain ⟨u, w⟩ := hd
      by_cases hu : u = uri
      · subst hu
        simp [lookupDoc, setDoc]
      · simp [lookupDoc, setDoc, hu] at h ⊢
        exact ih h

/-- acceptSuggestion while idle: only the warning is added. -/
theorem accept_none_eq (s : State) (h : s.currentSuggestion = none) :
    acceptSuggestion s = addMsg MsgKind.warning "No suggestion to accept" s := by
  simp [acceptSuggestion, acceptGuard, h]

/-- The full effect of a successful acceptSuggestion: document edited,
save recorded when autoSave is on, success message shown, every editor
view other than the reopened target closed, state cleaned up. -/
theorem accept_success_eq (s : State) (sug : Suggestion) (text : String)
    (hp : s.currentSuggestion = some sug)
    (hdoc : lookupDoc s.host.docs sug.uri = some text)
    (hedit : s.host.editOk = true) :
    acceptSuggestion s =
      { currentSuggestion := none
        decorationTypeDisposed := s.decorationTypeDisposed
        host :=
          { docs := setDoc s.host.docs sug.uri (replaceRange text sug.range sug.newCode)
            openEditors := [sug.uri]
            decorations := []
            diffViews := []
            messages := (MsgKind.info, "✓ AI suggestion accepted and applied!") :: s.host.messages
            saveCalls := (if s.host.autoSave then sug.uri :: s.host.saveCalls else s.host.saveCalls)
            hasSuggestionCtx := false
            showInlineDecorations := s.host.showInlineDecorations
            autoSave := s.host.autoSave
            editOk := s.host.editOk
            saveOk := s.host.saveOk } } := by
  simp [acceptSuggestion, acceptGuard, hp, acceptBody, closeAllEditors, hdoc,
        openEditor, hedit, cleanup, clearDecorations, addMsg]

/-- The full effect of acceptSuggestion when the host rejects the edit:
no document change, no save, error message, suggestion retained. -/
theorem accept_editFail_eq (s : State) (sug : Suggestion) (text : String)
    (hp : s.currentSuggestion = some sug)
    (hdoc : lookupDoc s.host.docs sug.uri = some text)
    (hedit : s.host.editOk = false) :
    acceptSuggestion s =
      { currentSuggestion := some sug
        decorationTypeDisposed := s.decorationTypeDisposed
        host :=
          { docs := s.host.docs
            openEditors := [sug.uri]
            decorations := []
            diffViews := []
            messages := (MsgKind.error, "Error applying suggestion: Failed to apply edit") :: s.host.messages
            saveCalls := s.host.saveCalls
            hasSuggestionCtx := s.host.hasSuggestionCtx
            showInlineDecorations := s.host.showInlineDecorations
            autoSave := s.host.autoSave
            editOk := s.host.editOk
            saveOk := s.host.saveOk } } := by
  simp [acceptSuggestion, acceptGuard, hp, acceptBody, closeAllEditors, hdoc,
        openEditor, hedit, acceptCatch, addMsg]

/-- rejectSuggestion while idle returns the state unchanged. -/
theorem reject_none_eq (s : State) (h : s.currentSuggestion = none) :
    rejectSuggestion s = s := by
  simp [rejectSuggestion, h]

/-- rejectSuggestion with a pending suggestion always ends idle with the
context key unset and the documents untouched. -/
theorem reject_pending_state (s : State) (sug : Suggestion)
    (hp : s.currentSuggestion = some sug) :
    (rejectSuggestion s).currentSuggestion = none ∧
    (rejectSuggestion s).host.hasSuggestionCtx = false ∧
    (rejectSuggestion s).host.docs = s.host.docs := by
  cases hlk : lookupDoc s.host.docs sug.uri <;>
    simp [rejectSuggestion, hp, closeAllEditors, hlk, openEditor, addMsg,
          cleanup, clearDecorations]

/-! ## Claim C1 -/

/-- No suggestion pending yet; both documents have open editor views. -/
def host0 : HostState :=
  { docs := [("a.ts", "abcd"), ("b.ts", "qqqq")]
    openEditors := ["a.ts", "b.ts"]
    decorations := []
    diffViews := []
    messages := []
    saveCalls := []
    hasSuggestionCtx := false
    showInlineDecorations := true
    autoSave := true
    editOk := true
    saveOk := true }

/-- Idle initial state. -/
def state0 : State :=
  { currentSuggestion := none, decorationTypeDisposed := false, host := host0 }

/-- C1 is false as stated: after presenting a suggestion on a.ts and then
one on b.ts, the second call returns with the diff view of the superseded
a.ts suggestion still open - its diff-view artifacts are not cleared. -/
theorem c1_counterexample :
    ((showSuggestion (showSuggestion state0 "a.ts" { start := 0, stop := 2 } "ZZ" "use ZZ")
        "b.ts" { start := 0, stop := 1 } "Y" "use Y").currentSuggestion =
      some { uri := "b.ts", range := { start := 0, stop := 1 }, newCode := "Y", explanation := "use Y" }) ∧
    "a.ts" ∈ (showSuggestion (showSuggestion state0 "a.ts" { start := 0, stop := 2 } "ZZ" "use ZZ")
        "b.ts" { start := 0, stop := 1 } "Y" "use Y").host.diffViews := by
  decide

/-- C1 (amended): after each showSuggestion call exactly the new
PendingSuggestion is recorded (so at most one exists), and the decorations
of the superseded suggestion are cleared; the diff view of the superseded
suggestion, however, is not closed - every previously open diff view is
still open when the call returns. -/
theorem c1_show_supersedes (s : State) (sug : Suggestion) (uri : String) (range : Range)
    (newCode explanation : String)
    (hp : s.currentSuggestion = some sug) (hne : sug.uri ≠ uri) :
    (showSuggestion s uri range newCode explanation).currentSuggestion =
      some { uri := uri, range := range, newCode := newCode, explanation := explanation } ∧
    (∀ r : Range, (sug.uri, r) ∉ (showSuggestion s uri range newCode explanation).host.decorations) ∧
    (∀ d : String, d ∈ s.host.diffViews →
      d ∈ (showSuggestion s uri range newCode explanation).host.diffViews) := by
  refine ⟨by simp [showSuggestion, clearDecorations, hp, addMsg], ?_, ?_⟩
  · intro r hr
    simp only [showSuggestion, clearDecorations, hp, addMsg] at hr
    split at hr
    · simp [List.mem_filter, hne] at hr
    · simp [List.mem_filter] at hr
  · intro d hd
    simp only [showSuggestion, clearDecorations, hp, addMsg]
    split
    · exact hd
    · exact List.mem_cons_of_mem _ hd

/-- C1 witness: instance of c1_show_supersedes where the a.ts suggestion
of stateA is superseded by one on b.ts. -/
theorem c1_witness :
    (showSuggestion stateA "b.ts" { start := 0, stop := 1 } "Y" "use Y").currentSuggestion =
      some { uri := "b.ts", range := { start := 0, stop := 1 }, newCode := "Y", explanation := "use Y" } ∧
    (∀ r : Range,
      ("a.ts", r) ∉ (showSuggestion stateA "b.ts" { start := 0, stop := 1 } "Y" "use Y").host.decorations) ∧
    (∀ d : String, d ∈ stateA.host.diffViews →
      d ∈ (showSuggestion stateA "b.ts" { start := 0, stop := 1 } "Y" "use Y").host.diffViews) := by
  simpa using c1_show_supersedes stateA sugA "b.ts" { start := 0, stop := 1 } "Y" "use Y"
    rfl (by decide)

/-! ## Claim C2 -/

/-- C2: for a pending suggestion whose target document surface was closed
after presentation, acceptSuggestion still succeeds (the document still
being resolvable by its uri and the host accepting the edit): the document
is reopened and exactly targetRange is replaced by replacementText. -/
theorem c2_accept_after_close (s : State) (sug : Suggestion) (text : String)
    (hp : s.currentSuggestion = some sug)
    (hdoc : lookupDoc s.host.docs sug.uri = some text)
    (_hclosed : sug.uri ∉ s.host.openEditors)
    (hedit : s.host.editOk = true) :
    lookupDoc (acceptSuggestion s).host.docs sug.uri =
      some (replaceRange text sug.range sug.newCode) ∧
    sug.uri ∈ (acceptSuggestion s).host.openEditors ∧
    (acceptSuggestion s).host.messages =
      (MsgKind.info, "✓ AI suggestion accepted and applied!") :: s.host.messages := by
  rw [accept_success_eq s sug text hp hdoc hedit]
  exact ⟨lookupDoc_setDoc _ _ _ _ hdoc, by simp, rfl⟩

/-- C2 witness: in stateA only b.ts has an open view, yet accepting the
a.ts suggestion edits a.ts. -/
theorem c2_witness :
    lookupDoc (acceptSuggestion stateA).host.docs "a.ts" = some "ZZcd" ∧
    "a.ts" ∈ (acceptSuggestion stateA).host.openEditors ∧
    (acceptSuggestion stateA).host.messages =
      (MsgKind.info, "✓ AI suggestion accepted and applied!") :: stateA.host.messages := by
  simpa using c2_accept_after_close stateA sugA "abcd" rfl (by decide) (by decide) rfl

/-! ## Claim C3 -/

/-- C3: when the host reports failure of the replacement edit, an error
notification is raised and the accept aborts without further mutation: the
document is not saved, no second edit is attempted, and the document text
is untouched. -/
theorem c3_apply_failed (s : State) (sug : Suggestion) (text : String)
    (hp : s.currentSuggestion = some sug)
    (hdoc : lookupDoc s.host.docs sug.uri = some text)
    (hedit : s.host.editOk = false) :
    (acceptSuggestion s).host.docs = s.host.docs ∧
    (acceptSuggestion s).host.saveCalls = s.host.saveCalls ∧
    (acceptSuggestion s).host.messages =
      (MsgKind.error, "Error applying suggestion: Failed to apply edit") :: s.host.messages := by
  rw [accept_editFail_eq s sug text hp hdoc hedit]
  exact ⟨rfl, rfl, rfl⟩

/-- State in which the host rejects the edit. -/
def stateEditFail : State :=
  { currentSuggestion := some sugA, decorationTypeDisposed := false
    host := { hostA with editOk := false } }

/-- C3 witness: instance of c3_apply_failed on stateEditFail. -/
theorem c3_witness :
    (acceptSuggestion stateEditFail).host.docs = stateEditFail.host.docs ∧
    (acceptSuggestion stateEditFail).host.saveCalls = stateEditFail.host.saveCalls ∧
    (acceptSuggestion stateEditFail).host.messages =
      (MsgKind.error, "Error applying suggestion: Failed to apply edit") :: stateEditFail.host.messages := by
  simpa using c3_apply_failed stateEditFail sugA "abcd" rfl (by decide) rfl

/-! ## Claim C4 -/

/-- C4 is false as stated: after an acceptSuggestion call that completed
with failure (the host rejected the edit), the manager is not idle - the
pending suggestion is retained and the context key is still true, because
the catch path of acceptSuggestion never calls cleanup. -/
theorem c4_counterexample :
    (acceptSuggestion stateEditFail).currentSuggestion = some sugA ∧
    (acceptSuggestion stateEditFail).host.hasSuggestionCtx = true := by
  decide

/-- C4 (amended): after rejectSuggestion with a suggestion pending, and
after a SUCCESSFUL acceptSuggestion, the manager is idle: the pending
suggestion is null and the aiCodeAssistant.hasSuggestion context key is
false.  After a failed acceptSuggestion the suggestion and the key are
retained (see the counterexample). -/
theorem c4_terminal_idle (s : State) (sug : Suggestion) (text : String)
    (hp : s.currentSuggestion = some sug)
    (hdoc : lookupDoc s.host.docs sug.uri = some text)
    (hedit : s.host.editOk = true) :
    ((rejectSuggestion s).currentSuggestion = none ∧
     (rejectSuggestion s).host.hasSuggestionCtx = false) ∧
    ((acceptSuggestion s).currentSuggestion = none ∧
     (acceptSuggestion s).host.hasSuggestionCtx = false) := by
  refine ⟨⟨(reject_pending_state s sug hp).1, (reject_pending_state s sug hp).2.1⟩, ?_⟩
  rw [accept_success_eq s sug text hp hdoc hedit]
  exact ⟨rfl, rfl⟩

/-- C4 witness: instance of c4_terminal_idle on stateA. -/
theorem c4_witness :
    ((rejectSuggestion stateA).currentSuggestion = none ∧
     (rejectSuggestion stateA).host.hasSuggestionCtx = false) ∧
    ((acceptSuggestion stateA).currentSuggestion = none ∧
     (acceptSuggestion stateA).host.hasSuggestionCtx = false) := by
  simpa using c4_terminal_idle stateA sugA "abcd" rfl (by decide) rfl

/-! ## Claim C5 -/

/-- Suggestion whose replacement changes the length of the replaced span,
so applying it twice is observably different from applying it once. -/
def sugZ : Suggestion :=
  { uri := "a.ts", range := { start := 0, stop := 2 }, newCode := "ZZZ", explanation := "use ZZZ" }

/-- State with sugZ pending (autoSave off to keep the run minimal). -/
def state5 : State :=
  { currentSuggestion := some sugZ, decorationTypeDisposed := false
    host := { hostA with autoSave := false } }

/-- C5 is false as stated: a second acceptSuggestion call whose guard runs
while the first call is suspended at its first await is not ignored - the
guard still sees the pending suggestion, because the suggestion is only
nulled at cleanup - and the edit is applied twice: the interleaved run
turns abcd into ZZZZcd, while a single apply yields ZZZcd. -/
theorem c5_counterexample :
    (acceptGuard (acceptGuard state5).2).1 = some sugZ ∧
    lookupDoc (acceptTwiceInterleaved state5).host.docs "a.ts" = some "ZZZZcd" ∧
    lookupDoc (acceptSuggestion state5).host.docs "a.ts" = some "ZZZcd" := by
  decide

/-- C5 (amended): the only re-entrancy guard in acceptSuggestion is the
null check on the pending suggestion, which is cleared only at cleanup; a
second acceptSuggestion call is therefore ignored (warning, no further
document change and no further save) exactly when it starts after the
first call completed, as in this serial composition. -/
theorem c5_serial_second_accept_ignored (s : State) (sug : Suggestion) (text : String)
    (hp : s.currentSuggestion = some sug)
    (hdoc : lookupDoc s.host.docs sug.uri = some text)
    (hedit : s.host.editOk = true) :
    (acceptSuggestion (acceptSuggestion s)).host.docs = (acceptSuggestion s).host.docs ∧
    (acceptSuggestion (acceptSuggestion s)).host.saveCalls = (acceptSuggestion s).host.saveCalls ∧
    (acceptSuggestion (acceptSuggestion s)).host.messages =
      (MsgKind.warning, "No suggestion to accept") :: (acceptSuggestion s).host.messages := by
  have h1 : (acceptSuggestion s).currentSuggestion = none := by
    rw [accept_success_eq s sug text hp hdoc hedit]
  rw [accept_none_eq _ h1]
  exact ⟨rfl, rfl, rfl⟩

/-- C5 witness: instance of c5_serial_second_accept_ignored on state5. -/
theorem c5_witness :
    (acceptSuggestion (acceptSuggestion state5)).host.docs = (acceptSuggestion state5).host.docs ∧
    (acceptSuggestion (acceptSuggestion state5)).host.saveCalls =
      (acceptSuggestion state5).host.saveCalls ∧
    (acceptSuggestion (acceptSuggestion state5)).host.messages =
      (MsgKind.warning, "No suggestion to accept") :: (acceptSuggestion state5).host.messages := by
  simpa using c5_serial_second_accept_ignored state5 sugZ "abcd" rfl (by decide) rfl

/-! ## Claim C6 -/

/-- C6: rejectSuggestion never mutates document text, whatever the state
of the manager and of the host. -/
theorem c6_reject_preserves_docs (s : State) :
    (rejectSuggestion s).host.docs = s.host.docs := by
  cases hp : s.currentSuggestion with
  | none => rw [reject_none_eq s hp]
  | some sug => exact (reject_pending_state s sug hp).2.2

/-! ## Claim C7 -/

/-- C7 is false as stated: rejectSuggestion while idle is a silent no-op -
the state, its message list included, is returned unchanged, so no
user-visible warning is produced for the reject half of the claim. -/
theorem c7_counterexample :
    state0.currentSuggestion = none ∧ rejectSuggestion state0 = state0 := by
  decide

/-- C7 (amended): while idle, acceptSuggestion performs no document
mutation and produces a user-visible warning; rejectSuggestion while idle
performs no document mutation either, but is a silent no-op that produces
no warning at all. -/
theorem c7_idle_calls (s : State) (h : s.currentSuggestion = none) :
    (acceptSuggestion s).host.docs = s.host.docs ∧
    (acceptSuggestion s).host.messages =
      (MsgKind.warning, "No suggestion to accept") :: s.host.messages ∧
    rejectSuggestion s = s := by
  rw [accept_none_eq s h, reject_none_eq s h]
  exact ⟨rfl, rfl, rfl⟩

/-- C7 witness: instance of c7_idle_calls on the idle state0. -/
theorem c7_witness :
    (acceptSuggestion state0).host.docs = state0.host.docs ∧
    (acceptSuggestion state0).host.messages =
      (MsgKind.warning, "No suggestion to accept") :: state0.host.messages ∧
    rejectSuggestion state0 = state0 := by
  simpa using c7_idle_calls state0 rfl

/-! ## Claim C8 -/

/-- State in which the host will report save failure while autoSave is on. -/
def stateSaveFail : State :=
  { currentSuggestion := some sugA, decorationTypeDisposed := false
    host := { hostA with saveOk := false } }

/-- C8 is false as stated: with autoSave on and the host save failing, the
already-applied edit indeed stands and the save primitive was invoked, but
the failure is NOT reported - the only notification produced is the
success message, because the code never inspects the result of save. -/
theorem c8_counterexample :
    stateSaveFail.host.autoSave = true ∧
    stateSaveFail.host.saveOk = false ∧
    (acceptSuggestion stateSaveFail).host.saveCalls = ["a.ts"] ∧
    lookupDoc (acceptSuggestion stateSaveFail).host.docs "a.ts" = some "ZZcd" ∧
    (acceptSuggestion stateSaveFail).host.messages =
      [(MsgKind.info, "✓ AI suggestion accepted and applied!")] := by
  decide

/-- C8 (amended): on a successful accept the save primitive is invoked if
and only if autoSave is configured on; the result of save is never
inspected, so a save failure is neither reported nor rolls back the edit -
the outcome of the accept does not depend on saveOk. -/
theorem c8_autosave_iff (s : State) (sug : Suggestion) (text : String)
    (hp : s.currentSuggestion = some sug)
    (hdoc : lookupDoc s.host.docs sug.uri = some text)
    (hedit : s.host.editOk = true) :
    ((acceptSuggestion s).host.saveCalls =
      (if s.host.autoSave then sug.uri :: s.host.saveCalls else s.host.saveCalls)) ∧
    lookupDoc (acceptSuggestion s).host.docs sug.uri =
      some (replaceRange text sug.range sug.newCode) ∧
    (acceptSuggestion s).host.messages =
      (MsgKind.info, "✓ AI suggestion accepted and applied!") :: s.host.messages := by
  rw [accept_success_eq s sug text hp hdoc hedit]
  exact ⟨rfl, lookupDoc_setDoc _ _ _ _ hdoc, rfl⟩

/-- C8 witness: instance of c8_autosave_iff on stateSaveFail. -/
theorem c8_witness :
    ((acceptSuggestion stateSaveFail).host.saveCalls =
      (if stateSaveFail.host.autoSave then sugA.uri :: stateSaveFail.host.saveCalls
       else stateSaveFail.host.saveCalls)) ∧
    lookupDoc (acceptSuggestion stateSaveFail).host.docs sugA.uri =
      some (replaceRange "abcd" sugA.range sugA.newCode) ∧
    (acceptSuggestion stateSaveFail).host.messages =
      (MsgKind.info, "✓ AI suggestion accepted and applied!") :: stateSaveFail.host.messages :=
  c8_autosave_iff stateSaveFail sugA "abcd" rfl (by decide) rfl

/-! ## Claim C9 -/

/-- C9: every successful acceptSuggestion closes ALL open editor views
before reopening the target document: afterwards the target is the only
open editor view, no diff view remains, and every unrelated previously
open view is gone. -/
theorem c9_accept_closes_all (s : State) (sug : Suggestion) (text : String)
    (hp : s.currentSuggestion = some sug)
    (hdoc : lookupDoc s.host.docs sug.uri = some text)
    (hedit : s.host.editOk = true) :
    (acceptSuggestion s).host.openEditors = [sug.uri] ∧
    (acceptSuggestion s).host.diffViews = [] ∧
    (∀ e : String, e ∈ s.host.openEditors → e ≠ sug.uri →
      e ∉ (acceptSuggestion s).host.openEditors) := by
  rw [accept_success_eq s sug text hp hdoc hedit]
  refine ⟨rfl, rfl, ?_⟩
  intro e he hne
  simp [hne]

/-- C9 witness: in stateA the unrelated b.ts view is open before the
accept and closed after it. -/
theorem c9_witness :
    (acceptSuggestion stateA).host.openEditors = ["a.ts"] ∧
    (acceptSuggestion stateA).host.diffViews = [] ∧
    "b.ts" ∉ (acceptSuggestion stateA).host.openEditors := by
  have h := c9_accept_closes_all stateA sugA "abcd" rfl (by decide) rfl
  exact ⟨h.1, h.2.1, h.2.2 "b.ts" (by decide) (by decide)⟩

/-! ## Claim C10 -/

/-- C10: dispose clears the decorations of the pending suggestion and
releases the decoration type, but does not clear the pending suggestion:
the suggestion and the aiCodeAssistant.hasSuggestion context key survive,
and every other field of the state is unchanged. -/
theorem c10_dispose_frame (s : State) (sug : Suggestion)
    (hp : s.currentSuggestion = some sug)
    (hctx : s.host.hasSuggestionCtx = true) :
    (dispose s).currentSuggestion = some sug ∧
    (dispose s).host.hasSuggestionCtx = true ∧
    (dispose s).decorationTypeDisposed = true ∧
    (dispose s).host.decorations = s.host.decorations.filter (fun p => p.1 ≠ sug.uri) ∧
    (dispose s).host.docs = s.host.docs ∧
    (dispose s).host.openEditors = s.host.openEditors ∧
    (dispose s).host.diffViews = s.host.diffViews ∧
    (dispose s).host.messages = s.host.messages ∧
    (dispose s).host.saveCalls = s.host.saveCalls := by
  simp [dispose, clearDecorations, hp, hctx]

/-- C10 witness: instance of c10_dispose_frame on stateA. -/
theorem c10_witness :
    (dispose stateA).currentSuggestion = some sugA ∧
    (dispose stateA).host.hasSuggestionCtx = true ∧
    (dispose stateA).decorationTypeDisposed = true ∧
    (dispose stateA).host.decorations = stateA.host.decorations.filter (fun p => p.1 ≠ sugA.uri) ∧
    (dispose stateA).host.docs = stateA.host.docs ∧
    (dispose stateA).host.openEditors = stateA.host.openEditors ∧
    (dispose stateA).host.diffViews = stateA.host.diffViews ∧
    (dispose stateA).host.messages = stateA.host.messages ∧
    (dispose stateA).host.saveCalls = stateA.host.saveCalls :=
  c10_dispose_frame stateA sugA rfl rfl

end SuggestionManager
